import Mathlib

/-!
Verification development for the Fact-It selector subsystem.

The definitions below are a shallow embedding of the TypeScript sources:

* `src/background/selectors/selector-cache.ts` — the cache store over
  `chrome.storage.local` (get/set/updateValidation/remove/clear/stats),
* `src/background/selectors/static-selectors.ts` — the static selector
  registry and its staged domain lookup,
* the selector generator's retry loop (`generateSelectorsWithRetry`),
* the service worker's resolution pipeline (`handleDiscoverSelectors`)
  and validation-report intake (`handleValidationResult`),
* the content-script selector validator (`validateSelectors`,
  `quickValidate`).

Conventions of the embedding:

* `chrome.storage.local` is a `Storage` state record carrying the cache map
  plus two fault flags (`readFails`, `writeFails`) saying whether the next
  storage read / write throws; JavaScript exceptions are `Except`.
* JS objects used as string-keyed maps become association lists
  (`List (String × _)`); JS object assignment replaces the existing key in
  place, `delete` removes it (JS objects never hold a duplicate key).
* Timestamps (`Date.now()`) are passed in explicitly as `ℤ`; JS numbers
  that carry fractional data (confidence, text-extraction rate) are `ℚ`.
* Character-level helpers (`jsToLower`, `jsSplitDot`, …) model the exact
  JS string primitives used by the sources, restricted to the ASCII
  behaviour the sources rely on; console logging is not modelled.
-/

namespace FactIt

/-! ## JS string primitives (structural, kernel-evaluable) -/

/-- `beginsWith pat s`: does the character list `s` start with `pat`?
Models JS `String.prototype.startsWith` at the character-list level. -/
def beginsWith : List Char → List Char → Bool
  | [], _ => true
  | _ :: _, [] => false
  | p :: ps, c :: cs => p = c && beginsWith ps cs

/-- Models JS `s.startsWith(pat)`. -/
def jsStartsWith (s pat : String) : Bool :=
  beginsWith pat.data s.data

/-- Does `pat` occur as a contiguous sublist of the second argument? -/
def containsSub (pat : List Char) : List Char → Bool
  | [] => beginsWith pat []
  | c :: cs => beginsWith pat (c :: cs) || containsSub pat cs

/-- Models JS `s.includes(pat)`. -/
def jsIncludes (s pat : String) : Bool :=
  containsSub pat.data s.data

/-- Models JS `s.toLowerCase()` (ASCII case mapping, which is all the
sources rely on for domain strings). -/
def jsToLower (s : String) : String :=
  String.mk (s.data.map Char.toLower)

/-- Split a character list on a separator character; like JS
`s.split(sep)` this always yields at least one (possibly empty) piece. -/
def splitOnChar (sep : Char) : List Char → List (List Char)
  | [] => [[]]
  | c :: cs =>
    let rest := splitOnChar sep cs
    if c = sep then [] :: rest
    else
      match rest with
      | [] => [[c]]
      | r :: rs => (c :: r) :: rs

/-- Models JS `domain.split('.')`. -/
def jsSplitDot (s : String) : List String :=
  (splitOnChar (Char.ofNat 46) s.data).map String.mk

/-- Models JS `parts.join('.')`. -/
def joinDot : List String → String
  | [] => ""
  | [p] => p
  | p :: ps => p ++ "." ++ joinDot ps

/-- Models JS `s.trim()` (leading and trailing whitespace removed). -/
def jsTrim (s : String) : String :=
  String.mk (((s.data.dropWhile Char.isWhitespace).reverse.dropWhile
    Char.isWhitespace).reverse)

/-! ## Shared types (`src/shared/types.ts`) -/

/-- `PlatformSelectors` from `src/shared/types.ts`: `postContainer` and
`textContent` are required, `author` and `timestamp` optional. -/
structure PlatformSelectors where
  postContainer : String
  textContent : String
  author : Option String
  timestamp : Option String
deriving DecidableEq

/-! ## Static selector registry (`static-selectors.ts` and
`src/shared/constants.ts`)

The registry values come from the `SELECTORS` constant.  (The `twitter`
and `facebook` records also carry a `fallback` key at runtime; it is not
part of the `PlatformSelectors` interface and nothing in the verified
code reads it, so it is not modelled.) -/

/-- `SELECTORS.twitter` from `src/shared/constants.ts`. -/
def twitterSelectors : PlatformSelectors :=
  { postContainer := "article[data-testid=\"tweet\"]"
    textContent := "div[data-testid=\"tweetText\"]"
    author := none
    timestamp := none }

/-- `SELECTORS.linkedin` from `src/shared/constants.ts`; the
`postContainer` and `textContent` strings are the `join(', ')` of the
selector lists in the source. -/
def linkedinSelectors : PlatformSelectors :=
  { postContainer := String.intercalate ", "
      [ "article[data-urn^=\"urn:li:activity\"]"
      , "article[data-urn^=\"urn:li:ugcPost\"]"
      , "article[data-urn^=\"urn:li:share\"]"
      , "article[data-entity-urn^=\"urn:li:activity\"]"
      , "article[data-entity-urn^=\"urn:li:ugcPost\"]"
      , "div[data-urn^=\"urn:li:activity\"]"
      , "div[data-urn^=\"urn:li:ugcPost\"]"
      , "div[data-urn^=\"urn:li:share\"]"
      , "div[data-urn^=\"urn:li:fsd_profilePost\"]"
      , "div[data-entity-urn^=\"urn:li:activity\"]"
      , "div[data-entity-urn^=\"urn:li:ugcPost\"]"
      , "div[data-entity-urn^=\"urn:li:share\"]"
      , "div[data-id^=\"urn:li:activity\"]"
      , "div[data-id^=\"urn:li:ugcPost\"]"
      , "div[data-id^=\"urn:li:share\"]"
      , "div[data-id^=\"urn:li:fsd_profilePost\"]"
      , "section[data-urn^=\"urn:li:activity\"]"
      , "section[data-urn^=\"urn:li:ugcPost\"]"
      , "section[data-urn^=\"urn:li:share\"]"
      , "div[data-view-name^=\"feed/feed-update\"]"
      , "div[data-view-name^=\"feed/updates\"]"
      , "div[data-test-id=\"activity-update\"]"
      , "div[data-test-id=\"main-feed-activity\"]"
      , "div.feed-shared-update-v2"
      , "div.feed-shared-update-v3"
      , "div.feed-shared-update-v4"
      , "div.update-components-card"
      , "div.feed-update"
      , "li.feed-update"
      , "li.feed-item"
      , "div[role=\"article\"]"
      , "article[role=\"article\"]" ]
    textContent := String.intercalate ", "
      [ "div.update-components-text span[dir]"
      , "div.update-components-text-core__text span[dir]"
      , "div.feed-shared-inline-show-more-text span[dir]"
      , "div.feed-shared-inline-show-more-text [dir]"
      , "div.feed-shared-update-v2__description span[dir]"
      , "div.feed-shared-update-v2__description"
      , "div.feed-shared-update-v3__description span[dir]"
      , "div.feed-shared-update-v3__description"
      , "div.feed-shared-update-v4__description span[dir]"
      , "div.feed-shared-update-v4__description"
      , "div[data-view-name^=\"feed/feed-update\"] span.break-words"
      , "div[data-test-id=\"main-feed-activity\"] span[dir]"
      , "div[data-test-id=\"activity-update\"] span[dir]"
      , "div[data-entity-urn^=\"urn:li:activity\"] span[dir]"
      , "div[data-id^=\"urn:li\"] span[dir]"
      , "span[data-test-feed-shared-update-text]"
      , "article[role=\"article\"] span[dir]"
      , "div[role=\"article\"] span[dir]"
      , "span.break-words"
      , "div[role=\"article\"] p[dir]"
      , "article[role=\"article\"] p[dir]"
      , "div[role=\"article\"] p"
      , "article[role=\"article\"] p"
      , "span[dir]" ]
    author := some "a.update-components-actor__meta-link"
    timestamp := some "span.update-components-actor__sub-description" }

/-- `SELECTORS.facebook` from `src/shared/constants.ts`. -/
def facebookSelectors : PlatformSelectors :=
  { postContainer := "div.x1yztbdb.x1n2onr6.xh8yej3.x1ja2u2z"
    textContent := "div.xdj266r span[dir=\"auto\"]"
    author := none
    timestamp := none }

/-- Generic association-list lookup: the value stored under key `d`,
modelling JS `obj[d]` on a string-keyed object. -/
def assocLookup {α : Type} : List (String × α) → String → Option α
  | [], _ => none
  | p :: ps, d => if p.1 = d then some p.2 else assocLookup ps d

/-- `STATIC_SELECTOR_REGISTRY` from `static-selectors.ts`. -/
def STATIC_SELECTOR_REGISTRY : List (String × PlatformSelectors) :=
  [ ("twitter.com", twitterSelectors)
  , ("x.com", twitterSelectors)
  , ("mobile.twitter.com", twitterSelectors)
  , ("mobile.x.com", twitterSelectors)
  , ("linkedin.com", linkedinSelectors)
  , ("www.linkedin.com", linkedinSelectors)
  , ("mobile.linkedin.com", linkedinSelectors)
  , ("facebook.com", facebookSelectors)
  , ("www.facebook.com", facebookSelectors)
  , ("m.facebook.com", facebookSelectors)
  , ("mobile.facebook.com", facebookSelectors) ]

/-- `domain.toLowerCase().replace(/^www\./, '')` — the normalization step
at the head of `getStaticSelectorsForDomain` (also performed by the
content script when it derives the page domain from the hostname). -/
def normalizeDomain (domain : String) : String :=
  let lower := jsToLower domain
  if jsStartsWith lower "www." then String.mk (lower.data.drop 4) else lower

/-- `extractBaseDomain` from `static-selectors.ts`: keep the last 2
labels, or the last 3 when the last 2 form a known compound TLD. -/
def extractBaseDomain (domain : String) : String :=
  let parts := jsSplitDot domain
  if parts.length < 2 then domain
  else
    let twoPartTlds := ["co.uk", "com.au", "co.jp", "co.in", "com.br"]
    let lastTwoParts := joinDot (parts.drop (parts.length - 2))
    if twoPartTlds.any (fun t => t = lastTwoParts) then
      joinDot (parts.drop (parts.length - 3))
    else
      joinDot (parts.drop (parts.length - 2))

/-- `getStaticSelectorsForDomain` from `static-selectors.ts`,
parameterised by the registry it reads (the source hard-wires
`STATIC_SELECTOR_REGISTRY`; see `getStaticSelectorsForDomain`): direct
lookup of the normalized domain, then with a `www.` prefix, then the
base domain when it differs. -/
def getStaticSelectorsFrom (registry : List (String × PlatformSelectors))
    (domain : String) : Option PlatformSelectors :=
  let normalizedDomain := normalizeDomain domain
  match assocLookup registry normalizedDomain with
  | some s => some s
  | none =>
    let withWww := "www." ++ normalizedDomain
    match assocLookup registry withWww with
    | some s => some s
    | none =>
      let baseDomain := extractBaseDomain normalizedDomain
      if baseDomain ≠ normalizedDomain then
        match assocLookup registry baseDomain with
        | some s => some s
        | none => none
      else none

/-- `getStaticSelectorsForDomain` as exported by `static-selectors.ts`. -/
def getStaticSelectorsForDomain (domain : String) : Option PlatformSelectors :=
  getStaticSelectorsFrom STATIC_SELECTOR_REGISTRY domain

/-! ## Cache store (`selector-cache.ts`) -/

/-- The `validationMetrics` record of a cache entry. -/
structure ValidationMetrics where
  postsFound : Nat
  textExtractionRate : ℚ
deriving DecidableEq

/-- `SelectorCacheEntry` from `selector-cache.ts`. -/
structure SelectorCacheEntry where
  domain : String
  selectors : PlatformSelectors
  confidence : ℚ
  discoveredAt : ℤ
  lastValidatedAt : ℤ
  validationMetrics : ValidationMetrics
deriving DecidableEq

/-- The `SelectorCache` object persisted under `STORAGE_KEYS.SELECTORS`. -/
abbrev SelectorCache := List (String × SelectorCacheEntry)

/-- The `chrome.storage.local` area as seen by the cache store, plus two
fault flags driving the modelled I/O exceptions. -/
structure Storage where
  cache : SelectorCache
  readFails : Bool
  writeFails : Bool
deriving DecidableEq

/-- `chrome.storage.local.get(STORAGE_KEYS.SELECTORS)` (with the
`|| {}` default applied): yields the cache object, or throws. -/
def chromeGet (st : Storage) : Except Unit SelectorCache :=
  if st.readFails then .error () else .ok st.cache

/-- `chrome.storage.local.set({[STORAGE_KEYS.SELECTORS]: c})`: replaces
the stored cache object, or throws. -/
def chromeSet (st : Storage) (c : SelectorCache) : Except Unit Storage :=
  if st.writeFails then .error () else .ok { st with cache := c }

/-- JS `cache[d] = e`: replace the entry under key `d` in place, or
append it when the key is absent. -/
def assocInsert {α : Type} : List (String × α) → String → α → List (String × α)
  | [], d, e => [(d, e)]
  | p :: ps, d, e => if p.1 = d then (d, e) :: ps else p :: assocInsert ps d e

/-- JS `delete cache[d]`. -/
def assocErase {α : Type} : List (String × α) → String → List (String × α)
  | [], _ => []
  | p :: ps, d => if p.1 = d then assocErase ps d else p :: assocErase ps d

/-- `CACHE_TTL_MS = 30 * 24 * 60 * 60 * 1000` (30 days). -/
def CACHE_TTL_MS : ℤ := 30 * 24 * 60 * 60 * 1000

/-- `REVALIDATION_INTERVAL_MS = 7 * 24 * 60 * 60 * 1000` (7 days). -/
def REVALIDATION_INTERVAL_MS : ℤ := 7 * 24 * 60 * 60 * 1000

/-- `removeCachedSelectors` from `selector-cache.ts`: read the cache,
delete the key, write it back; any storage error is caught and logged
(the function completes normally either way). -/
def removeCachedSelectors (st : Storage) (domain : String) : Storage :=
  match chromeGet st with
  | .error _ => st
  | .ok cache =>
    match chromeSet st (assocErase cache domain) with
    | .ok st2 => st2
    | .error _ => st

/-- `getCachedSelectors` from `selector-cache.ts`: look the domain up
as-is; on an entry older than the TTL, evict it (via
`removeCachedSelectors`) and return null; storage read errors are caught
and degrade to null.  `now` stands for `Date.now()`. -/
def getCachedSelectors (st : Storage) (domain : String) (now : ℤ) :
    Option SelectorCacheEntry × Storage :=
  match chromeGet st with
  | .error _ => (none, st)
  | .ok cache =>
    match assocLookup cache domain with
    | none => (none, st)
    | some entry =>
      if CACHE_TTL_MS < now - entry.discoveredAt then
        (none, removeCachedSelectors st domain)
      else
        (some entry, st)

/-- `setCachedSelectors` from `selector-cache.ts`: build a fresh entry
with `discoveredAt = lastValidatedAt = now` and store it; storage errors
are caught, logged, and re-thrown. -/
def setCachedSelectors (st : Storage) (domain : String)
    (selectors : PlatformSelectors) (confidence : ℚ)
    (validationMetrics : ValidationMetrics) (now : ℤ) : Except Unit Storage :=
  match chromeGet st with
  | .error e => .error e
  | .ok cache =>
    let entry : SelectorCacheEntry :=
      { domain := domain, selectors := selectors, confidence := confidence
        discoveredAt := now, lastValidatedAt := now
        validationMetrics := validationMetrics }
    chromeSet st (assocInsert cache domain entry)

/-- `updateValidationTimestamp` from `selector-cache.ts`: if an entry
exists, bump `lastValidatedAt` and replace `validationMetrics`; warn and
return when the entry is absent; storage errors are caught and logged
(not re-thrown). -/
def updateValidationTimestamp (st : Storage) (domain : String)
    (validationMetrics : ValidationMetrics) (now : ℤ) : Storage :=
  match chromeGet st with
  | .error _ => st
  | .ok cache =>
    match assocLookup cache domain with
    | none => st
    | some entry =>
      match chromeSet st (assocInsert cache domain
          { entry with lastValidatedAt := now
                       validationMetrics := validationMetrics }) with
      | .ok st2 => st2
      | .error _ => st

/-- `needsRevalidation` from `selector-cache.ts`. -/
def needsRevalidation (entry : SelectorCacheEntry) (now : ℤ) : Bool :=
  decide (REVALIDATION_INTERVAL_MS < now - entry.lastValidatedAt)

/-- `getAllCachedDomains` from `selector-cache.ts`: the keys of the
cache object; read errors degrade to the empty list. -/
def getAllCachedDomains (st : Storage) : List String :=
  match chromeGet st with
  | .error _ => []
  | .ok cache => cache.map Prod.fst

/-- `clearSelectorCache` from `selector-cache.ts`: overwrite with the
empty object; write errors are caught, logged, and re-thrown. -/
def clearSelectorCache (st : Storage) : Except Unit Storage :=
  chromeSet st []

/-- JS `Math.round` on a rational (round half toward positive infinity). -/
def jsRound (q : ℚ) : ℤ :=
  ⌊q + 1 / 2⌋

/-- The aggregate returned by `getCacheStats`. -/
structure CacheStats where
  totalDomains : Nat
  averageConfidence : ℤ
  oldestEntry : ℤ
  newestEntry : ℤ
deriving DecidableEq

/-- `getCacheStats` from `selector-cache.ts`: on an empty cache or a
storage read error, the all-zero aggregate; otherwise the entry count,
rounded mean confidence, and min/max `discoveredAt`. -/
def getCacheStats (st : Storage) : CacheStats :=
  match chromeGet st with
  | .error _ => ⟨0, 0, 0, 0⟩
  | .ok cache =>
    match cache.map Prod.snd with
    | [] => ⟨0, 0, 0, 0⟩
    | e :: es =>
      let entries := e :: es
      let averageConfidence : ℚ :=
        ((entries.map SelectorCacheEntry.confidence).foldl (· + ·) 0) /
          (entries.length : ℚ)
      { totalDomains := entries.length
        averageConfidence := jsRound averageConfidence
        oldestEntry := (entries.map SelectorCacheEntry.discoveredAt).foldl
          min e.discoveredAt
        newestEntry := (entries.map SelectorCacheEntry.discoveredAt).foldl
          max e.discoveredAt }

/-! ## Discovery retry loop (`generateSelectorsWithRetry`) -/

/-- `SelectorDiscoveryResult` from the selector generator. -/
structure SelectorDiscoveryResult where
  selectors : PlatformSelectors
  confidence : ℚ
  reasoning : String
deriving DecidableEq

instance {ε α : Type} [DecidableEq ε] [DecidableEq α] :
    DecidableEq (Except ε α) := fun a b =>
  match a, b with
  | .ok a, .ok b =>
    if h : a = b then isTrue (congrArg Except.ok h)
    else isFalse (fun hh => h (Except.ok.inj hh))
  | .error a, .error b =>
    if h : a = b then isTrue (congrArg Except.error h)
    else isFalse (fun hh => h (Except.error.inj hh))
  | .ok _, .error _ => isFalse (fun hh => Except.noConfusion hh)
  | .error _, .ok _ => isFalse (fun hh => Except.noConfusion hh)

/-- Observable outcome of one run of `generateSelectorsWithRetry`: the
value returned or error thrown, how many attempts ran, and the backoff
delays (in ms) slept between attempts. -/
structure RetryOutcome where
  result : Except String SelectorDiscoveryResult
  attemptsMade : Nat
  delays : List Nat
deriving DecidableEq

/-- The terminal error message
`` `Selector generation failed after ${maxAttempts} attempts: ${lastError?.message}` ``. -/
def terminalMessage (maxAttempts : Nat) (lastMessage : String) : String :=
  "Selector generation failed after " ++ toString maxAttempts ++
    " attempts: " ++ lastMessage

/-- The `for (let attempt = 1; attempt <= maxAttempts; attempt++)` loop
of `generateSelectorsWithRetry`.  `outcomes k` is what the underlying
`generateSelectors` call does on attempt `k` (returns or throws);
`fuel` is the number of attempts still allowed, so `attempt + fuel =
maxAttempts + 1` at every call.  A failure whose message includes
`"API key"` is re-thrown at once; otherwise a backoff delay of
`2 ^ attempt * 1000` ms is slept only when further attempts remain. -/
def retryGo (outcomes : Nat → Except String SelectorDiscoveryResult)
    (maxAttempts : Nat) : Nat → Nat → Option String → RetryOutcome
  | 0, _, lastError =>
    ⟨.error (terminalMessage maxAttempts (lastError.getD "undefined")), 0, []⟩
  | fuel + 1, attempt, _ =>
    match outcomes attempt with
    | .ok r => ⟨.ok r, 1, []⟩
    | .error e =>
      if jsIncludes e "API key" then ⟨.error e, 1, []⟩
      else
        let rest := retryGo outcomes maxAttempts fuel (attempt + 1) (some e)
        ⟨rest.result, rest.attemptsMade + 1,
          if fuel = 0 then rest.delays else 2 ^ attempt * 1000 :: rest.delays⟩

/-- `generateSelectorsWithRetry` (its `maxAttempts` parameter defaults
to 3 in the source). -/
def generateSelectorsWithRetry
    (outcomes : Nat → Except String SelectorDiscoveryResult)
    (maxAttempts : Nat) : RetryOutcome :=
  retryGo outcomes maxAttempts maxAttempts 1 none

/-! ## Resolution pipeline (`handleDiscoverSelectors` in the service
worker) and validation-report intake (`handleValidationResult`) -/

/-- The `source` tag of a `SELECTORS_DISCOVERED` response. -/
inductive Source where
  | cache
  | dynamic
  | static
deriving DecidableEq

/-- The payload of the `SELECTORS_DISCOVERED` response sent by
`handleDiscoverSelectors`. -/
structure DiscoveredPayload where
  domain : String
  selectors : PlatformSelectors
  confidence : ℚ
  cached : Bool
  source : Source
  reasoning : Option String
deriving DecidableEq

/-- The all-tiers-failed sentinel response: empty selectors, confidence
0, `source: 'static'`, `cached: false`. -/
def emptyPayload (domain : String) : DiscoveredPayload :=
  { domain := domain
    selectors := { postContainer := "", textContent := ""
                   author := none, timestamp := none }
    confidence := 0, cached := false, source := .static, reasoning := none }

/-- The trailing tier-3 block of `handleDiscoverSelectors` (the
last-resort static lookup followed by the sentinel response). -/
def tier3Fallback (st : Storage) (domain : String) :
    DiscoveredPayload × Storage :=
  match getStaticSelectorsForDomain domain with
  | some s =>
    ({ domain := domain, selectors := s, confidence := 85, cached := false
       source := .static
       reasoning := some "Dynamic discovery failed, using predefined static selectors" },
     st)
  | none => (emptyPayload domain, st)

/-- `handleDiscoverSelectors` from the service worker: the three-tier
resolution pipeline.  `discover d h` stands for what
`generateSelectorsWithRetry(d, h)` does (returns a discovery result or
throws); `now` stands for `Date.now()`.  With `forceStatic` only the
static registry is consulted (tiers 1 and 2 are guarded by
`!forceStatic`); otherwise the cache is tried, then — when an
`htmlSample` is present — dynamic discovery whose successful result is
immediately cached with placeholder metrics, and whose failure (or a
failure of the cache write) falls through to the static tier. -/
def handleDiscoverSelectors (st : Storage) (domain : String)
    (htmlSample : Option String) (forceStatic : Bool)
    (discover : String → String → Except String SelectorDiscoveryResult)
    (now : ℤ) : DiscoveredPayload × Storage :=
  if forceStatic then
    match getStaticSelectorsForDomain domain with
    | some s =>
      ({ domain := domain, selectors := s, confidence := 85, cached := false
         source := .static
         reasoning := some "Using predefined static selectors for known platform" },
       st)
    | none => tier3Fallback st domain
  else
    match getCachedSelectors st domain now with
    | (some entry, st1) =>
      ({ domain := domain, selectors := entry.selectors
         confidence := entry.confidence, cached := true, source := .cache
         reasoning := none },
       st1)
    | (none, st1) =>
      match htmlSample with
      | none => tier3Fallback st1 domain
      | some html =>
        match discover domain html with
        | .error _ => tier3Fallback st1 domain
        | .ok r =>
          match setCachedSelectors st1 domain r.selectors r.confidence
              ⟨0, 0⟩ now with
          | .error _ => tier3Fallback st1 domain
          | .ok st2 =>
            ({ domain := domain, selectors := r.selectors
               confidence := r.confidence, cached := false, source := .dynamic
               reasoning := some r.reasoning },
             st2)

/-- `handleValidationResult` from the service worker: a valid report
refreshes the cached entry's metrics, an invalid one evicts the entry. -/
def handleValidationResult (st : Storage) (domain : String) (valid : Bool)
    (postsFound : Nat) (textExtractionRate : ℚ) (now : ℤ) : Storage :=
  if valid then
    updateValidationTimestamp st domain ⟨postsFound, textExtractionRate⟩ now
  else
    removeCachedSelectors st domain

/-! ## Selector validator (`validateSelectors`, `quickValidate`) -/

/-- A post container as the validator sees it: `query sel` is the
`textContent` of `container.querySelector(sel)`, or `none` when no
descendant matches. -/
structure DomContainer where
  query : String → Option String

/-- The page as the validator sees it: `queryAll sel` is
`document.querySelectorAll(sel)` as a list of containers. -/
structure Dom where
  queryAll : String → List DomContainer

/-- The result record of `validateSelectors`.  (The source also returns
an `errors: string[]` list of log messages; it carries no decision and
is not modelled.) -/
structure ValidationResult where
  valid : Bool
  postsFound : Nat
  textExtractionRate : ℚ
deriving DecidableEq

/-- `validateSelectors` from the content-script validator: count the
containers matching `postContainer` (zero ⇒ fail immediately), count
those whose `textContent` descendant has trimmed text of length ≥ 50,
and pass iff at least 2 posts were found and at least 65% of them have
extractable text. -/
def validateSelectors (doc : Dom) (selectors : PlatformSelectors) :
    ValidationResult :=
  let containers := doc.queryAll selectors.postContainer
  if containers.length = 0 then
    ⟨false, 0, 0⟩
  else
    let postsFound := containers.length
    let postsWithText := (containers.filter (fun c =>
      match c.query selectors.textContent with
      | some t => decide (50 ≤ (jsTrim t).length)
      | none => false)).length
    let textExtractionRate : ℚ :=
      if 0 < postsFound then (postsWithText : ℚ) / (postsFound : ℚ) else 0
    ⟨decide (2 ≤ postsFound) && decide ((65 : ℚ) / 100 ≤ textExtractionRate),
     postsFound, textExtractionRate⟩

/-- The result record of `quickValidate`. -/
structure QuickResult where
  postsFound : Nat
  valid : Bool
deriving DecidableEq

/-- `quickValidate` from the content-script validator: count the posts
and pass iff at least 2 were found. -/
def quickValidate (doc : Dom) (postContainerSelector : String) : QuickResult :=
  let postsFound := (doc.queryAll postContainerSelector).length
  ⟨postsFound, decide (2 ≤ postsFound)⟩

/-! ## Helper lemmas -/

theorem assocLookup_erase_self {α : Type} (c : List (String × α)) (d : String) :
    assocLookup (assocErase c d) d = none := by
  induction c with
  | nil => rfl
  | cons p ps ih =>
    by_cases h : p.1 = d
    · simpa [assocErase, h] using ih
    · simp [assocErase, assocLookup, h, ih]

theorem assocLookup_erase_other {α : Type} (c : List (String × α))
    {d d2 : String} (h : d ≠ d2) :
    assocLookup (assocErase c d) d2 = assocLookup c d2 := by
  have hsymm : d2 ≠ d := fun hh => h hh.symm
  induction c with
  | nil => rfl
  | cons p ps ih =>
    by_cases hp : p.1 = d
    · have hne : p.1 ≠ d2 := by rw [hp]; exact h
      simp [assocErase, assocLookup, hp, hne, h, hsymm, ih]
    · by_cases hp2 : p.1 = d2 <;>
        simp [assocErase, assocLookup, hp, hp2, h, hsymm, ih]

theorem assocLookup_insert_self {α : Type} (c : List (String × α))
    (d : String) (e : α) :
    assocLookup (assocInsert c d e) d = some e := by
  induction c with
  | nil => simp [assocInsert, assocLookup]
  | cons p ps ih =>
    by_cases h : p.1 = d
    · simp [assocInsert, assocLookup, h]
    · simp [assocInsert, assocLookup, h, ih]

theorem assocLookup_insert_other {α : Type} (c : List (String × α))
    {d d2 : String} (h : d ≠ d2) (e : α) :
    assocLookup (assocInsert c d e) d2 = assocLookup c d2 := by
  have hsymm : d2 ≠ d := fun hh => h hh.symm
  induction c with
  | nil => simp [assocInsert, assocLookup, h]
  | cons p ps ih =>
    by_cases hp : p.1 = d
    · have hne : p.1 ≠ d2 := by rw [hp]; exact h
      simp [assocInsert, assocLookup, hp, hne, h, hsymm]
    · by_cases hp2 : p.1 = d2 <;>
        simp [assocInsert, assocLookup, hp, hp2, h, hsymm, ih]

theorem assocErase_of_absent {α : Type} (c : List (String × α)) (d : String)
    (h : ∀ p ∈ c, p.1 ≠ d) : assocErase c d = c := by
  induction c with
  | nil => rfl
  | cons p ps ih =>
    have hp : p.1 ≠ d := h p (List.mem_cons_self p ps)
    simp [assocErase, hp, ih (fun q hq => h q (List.mem_cons_of_mem p hq))]

theorem assocLookup_absent {α : Type} (c : List (String × α)) (d : String)
    (h : ∀ p ∈ c, p.1 ≠ d) : assocLookup c d = none := by
  induction c with
  | nil => rfl
  | cons p ps ih =>
    have hp : p.1 ≠ d := h p (List.mem_cons_self p ps)
    simp [assocLookup, hp, ih (fun q hq => h q (List.mem_cons_of_mem p hq))]

theorem assocErase_length {α : Type} (c : List (String × α)) (d : String)
    (hnd : (c.map Prod.fst).Nodup) (e : α) (h : assocLookup c d = some e) :
    (assocErase c d).length + 1 = c.length := by
  induction c with
  | nil => simp [assocLookup] at h
  | cons p ps ih =>
    by_cases hp : p.1 = d
    · have habs : ∀ q ∈ ps, q.1 ≠ d := by
        intro q hq
        have := (List.nodup_cons.mp hnd).1
        intro hqd
        exact this (hp ▸ hqd ▸ List.mem_map_of_mem Prod.fst hq)
      simp [assocErase, hp, assocErase_of_absent ps d habs]
    · have h2 : assocLookup ps d = some e := by simpa [assocLookup, hp] using h
      simp [assocErase, hp, ih (List.nodup_cons.mp hnd).2 h2]

theorem removeCachedSelectors_ok (st : Storage) (d : String)
    (hr : st.readFails = false) (hw : st.writeFails = false) :
    removeCachedSelectors st d = { st with cache := assocErase st.cache d } := by
  simp [removeCachedSelectors, chromeGet, chromeSet, hr, hw]

theorem removeCachedSelectors_flags (st : Storage) (d : String) :
    (removeCachedSelectors st d).readFails = st.readFails
    ∧ (removeCachedSelectors st d).writeFails = st.writeFails := by
  unfold removeCachedSelectors chromeGet chromeSet
  cases hr : st.readFails <;> cases hw : st.writeFails <;> simp [hr, hw]

theorem getCachedSelectors_state (st : Storage) (d : String) (now : ℤ) :
    (getCachedSelectors st d now).2 = st
    ∨ (getCachedSelectors st d now).2 = removeCachedSelectors st d := by
  unfold getCachedSelectors
  cases h1 : chromeGet st with
  | error e => simp
  | ok cache =>
    cases h2 : assocLookup cache d with
    | none => simp [h2]
    | some entry =>
      by_cases h : CACHE_TTL_MS < now - entry.discoveredAt <;> simp [h2, h]

theorem getCachedSelectors_flags (st : Storage) (d : String) (now : ℤ) :
    (getCachedSelectors st d now).2.readFails = st.readFails
    ∧ (getCachedSelectors st d now).2.writeFails = st.writeFails := by
  rcases getCachedSelectors_state st d now with h | h <;> rw [h]
  · exact ⟨rfl, rfl⟩
  · exact removeCachedSelectors_flags st d

theorem getCacheStats_totalDomains (st : Storage) (hr : st.readFails = false) :
    (getCacheStats st).totalDomains = st.cache.length := by
  unfold getCacheStats
  simp only [chromeGet, hr, Bool.false_eq_true, if_false]
  cases h : st.cache.map Prod.snd with
  | nil =>
    have : st.cache = [] := List.map_eq_nil_iff.mp h
    simp [this]
  | cons e es =>
    have : (e :: es).length = st.cache.length := by
      rw [← h, List.length_map]
    simpa using this

theorem tier3Fallback_source (st : Storage) (d : String) :
    (tier3Fallback st d).1.source = Source.static
    ∧ (tier3Fallback st d).2 = st := by
  unfold tier3Fallback
  cases h : getStaticSelectorsForDomain d <;> simp [h, emptyPayload]

/-! ## Claim theorems -/

/-- C3: with `forceStatic = true` only the static registry is consulted:
a registry hit is returned tagged `source = static` with confidence 85,
and a miss yields the sentinel payload (empty selectors, confidence 0,
`source = static`, `cached = false`) as a normal return value.  The
storage is returned untouched and the result is the same for every
cache state, `htmlSample`, discovery collaborator and timestamp, so
neither the cache nor the discovery service is ever invoked. -/
theorem claim3_forceStatic_consults_registry_only (st : Storage)
    (domain : String) (htmlSample : Option String)
    (discover : String → String → Except String SelectorDiscoveryResult)
    (now : ℤ) :
    handleDiscoverSelectors st domain htmlSample true discover now =
      (match getStaticSelectorsForDomain domain with
       | some s =>
         { domain := domain, selectors := s, confidence := 85
           cached := false, source := .static
           reasoning := some "Using predefined static selectors for known platform" }
       | none => emptyPayload domain,
       st) := by
  unfold handleDiscoverSelectors tier3Fallback
  cases h : getStaticSelectorsForDomain domain <;> simp [h]

/-- C4: a cached entry older than the 30-day TTL is evicted by the read
itself — `get` returns `none` and the returned storage no longer holds
the domain, so a subsequent `stats` counts one domain fewer; an entry
within the TTL is returned unchanged. -/
theorem claim4_lazy_expiry_on_read (st : Storage) (domain : String)
    (now : ℤ) (entry : SelectorCacheEntry)
    (hr : st.readFails = false) (hw : st.writeFails = false)
    (hfound : assocLookup st.cache domain = some entry) :
    (CACHE_TTL_MS < now - entry.discoveredAt →
      getCachedSelectors st domain now
        = (none, { st with cache := assocErase st.cache domain })
      ∧ assocLookup (assocErase st.cache domain) domain = none
      ∧ ((st.cache.map Prod.fst).Nodup →
          (getCacheStats
              { st with cache := assocErase st.cache domain }).totalDomains + 1
            = (getCacheStats st).totalDomains))
    ∧ (¬ CACHE_TTL_MS < now - entry.discoveredAt →
        getCachedSelectors st domain now = (some entry, st)) := by
  constructor
  · intro hexp
    refine ⟨?_, assocLookup_erase_self st.cache domain, ?_⟩
    · unfold getCachedSelectors
      simp [chromeGet, hr, hfound, hexp, removeCachedSelectors_ok st domain hr hw]
    · intro hnd
      rw [getCacheStats_totalDomains { st with cache := assocErase st.cache domain } hr,
        getCacheStats_totalDomains st hr]
      exact assocErase_length st.cache domain hnd entry hfound
  · intro hfresh
    unfold getCachedSelectors
    simp [chromeGet, hr, hfound, hfresh]

/-- C8 (amended): storage read failures are caught at the store
boundary and degrade to "no cached data" (`get` returns null without
touching the state, `stats` returns the all-zero aggregate, the domain
list is empty); a storage write failure is re-raised by `set` and
`clear`, but `updateValidation` and `remove` catch and swallow it,
completing normally with the state unchanged. -/
theorem claim8_storage_failure_semantics (st : Storage) (domain : String)
    (sel : PlatformSelectors) (conf : ℚ) (m : ValidationMetrics) (now : ℤ) :
    (st.readFails = true →
      getCachedSelectors st domain now = (none, st)
      ∧ getCacheStats st = ⟨0, 0, 0, 0⟩
      ∧ getAllCachedDomains st = [])
    ∧ (st.writeFails = true → st.readFails = false →
        setCachedSelectors st domain sel conf m now = .error ()
        ∧ clearSelectorCache st = .error ()
        ∧ updateValidationTimestamp st domain m now = st
        ∧ removeCachedSelectors st domain = st) := by
  constructor
  · intro hrf
    refine ⟨?_, ?_, ?_⟩
    · unfold getCachedSelectors
      simp [chromeGet, hrf]
    · unfold getCacheStats
      simp [chromeGet, hrf]
    · unfold getAllCachedDomains
      simp [chromeGet, hrf]
  · intro hwf hrf
    refine ⟨?_, ?_, ?_, ?_⟩
    · unfold setCachedSelectors
      simp [chromeGet, chromeSet, hrf, hwf]
    · unfold clearSelectorCache
      simp [chromeSet, hwf]
    · unfold updateValidationTimestamp
      cases h : assocLookup st.cache domain <;>
        simp [chromeGet, chromeSet, hrf, hwf, h]
    · unfold removeCachedSelectors
      simp [chromeGet, chromeSet, hrf, hwf]

/-- C10: the cache-store mutators only touch their own domain — for any
other domain `d2`, `set`, `updateValidation` and `remove` leave the
entry stored under `d2` exactly as it was. -/
theorem claim10_frame_other_domains (st : Storage) (d d2 : String)
    (sel : PlatformSelectors) (conf : ℚ) (m : ValidationMetrics) (now : ℤ)
    (st2 : Storage) (hne : d ≠ d2) :
    (setCachedSelectors st d sel conf m now = .ok st2 →
      assocLookup st2.cache d2 = assocLookup st.cache d2)
    ∧ assocLookup (updateValidationTimestamp st d m now).cache d2
        = assocLookup st.cache d2
    ∧ assocLookup (removeCachedSelectors st d).cache d2
        = assocLookup st.cache d2 := by
  refine ⟨?_, ?_, ?_⟩
  · intro hset
    unfold setCachedSelectors chromeGet chromeSet at hset
    by_cases hrf : st.readFails
    · simp [hrf] at hset
    · by_cases hwf : st.writeFails
      · simp [hrf, hwf] at hset
      · simp [hrf, hwf] at hset
        rw [← hset]
        exact assocLookup_insert_other st.cache hne _
  · unfold updateValidationTimestamp chromeGet chromeSet
    by_cases hrf : st.readFails
    · simp [hrf]
    · cases h : assocLookup st.cache d with
      | none => simp [hrf, h]
      | some entry =>
        by_cases hwf : st.writeFails
        · simp [hrf, hwf, h]
        · simp [hrf, hwf, h]
          exact assocLookup_insert_other st.cache hne _
  · unfold removeCachedSelectors chromeGet chromeSet
    by_cases hrf : st.readFails
    · simp [hrf]
    · by_cases hwf : st.writeFails
      · simp [hrf, hwf]
      · simp [hrf, hwf]
        exact assocLookup_erase_other st.cache hne

/-- C1: consequences of a validation report.  With `valid = false` the
cache entry for the domain is removed, a subsequent `get` of that
domain returns null (leaving the state as it was), and a following
resolution with an HTML sample and a successful discovery collaborator
is answered from tier 2 (`source = dynamic`, `cached = false`).  With
`valid = true` and an existing entry, `lastValidatedAt` is bumped to
the report time and `validationMetrics` is replaced while the
selectors, confidence and `discoveredAt` are kept; with no entry for
the domain the report is a no-op that never creates an entry. -/
theorem claim1_validation_report_semantics (st : Storage) (domain : String)
    (pf : Nat) (rate : ℚ) (now now2 : ℤ) (html : String)
    (discover : String → String → Except String SelectorDiscoveryResult)
    (r : SelectorDiscoveryResult)
    (hr : st.readFails = false) (hw : st.writeFails = false) :
    (assocLookup (handleValidationResult st domain false pf rate now).cache
        domain = none
      ∧ getCachedSelectors (handleValidationResult st domain false pf rate now)
          domain now2
        = (none, handleValidationResult st domain false pf rate now)
      ∧ (discover domain html = .ok r →
          (handleDiscoverSelectors
            (handleValidationResult st domain false pf rate now)
            domain (some html) false discover now2).1.source = Source.dynamic
          ∧ (handleDiscoverSelectors
              (handleValidationResult st domain false pf rate now)
              domain (some html) false discover now2).1.cached = false))
    ∧ (∀ entry, assocLookup st.cache domain = some entry →
        assocLookup
          (handleValidationResult st domain true pf rate now).cache domain
          = some { domain := entry.domain, selectors := entry.selectors
                   confidence := entry.confidence
                   discoveredAt := entry.discoveredAt
                   lastValidatedAt := now
                   validationMetrics := ⟨pf, rate⟩ })
    ∧ (assocLookup st.cache domain = none →
        handleValidationResult st domain true pf rate now = st) := by
  have hrm : handleValidationResult st domain false pf rate now
      = { st with cache := assocErase st.cache domain } := by
    unfold handleValidationResult
    simp [removeCachedSelectors_ok st domain hr hw]
  refine ⟨⟨?_, ?_, ?_⟩, ?_, ?_⟩
  · rw [hrm]
    exact assocLookup_erase_self st.cache domain
  · rw [hrm]
    unfold getCachedSelectors
    simp [chromeGet, hr, assocLookup_erase_self st.cache domain]
  · intro hok
    rw [hrm]
    have hmiss : assocLookup (assocErase st.cache domain) domain = none :=
      assocLookup_erase_self st.cache domain
    unfold handleDiscoverSelectors
    unfold getCachedSelectors
    simp [chromeGet, hr, hmiss, hok]
    unfold setCachedSelectors
    simp [chromeGet, chromeSet, hr, hw]
  · intro entry hfound
    unfold handleValidationResult updateValidationTimestamp
    simp [chromeGet, chromeSet, hr, hw, hfound]
    exact assocLookup_insert_self st.cache domain _
  · intro hmiss
    unfold handleValidationResult updateValidationTimestamp
    simp [chromeGet, hr, hmiss]

/-- C2: tier-2 dynamic discovery.  With `forceStatic = false`, no
non-expired cache entry and an HTML sample present, a successful
discovery is immediately persisted with placeholder validation metrics
(`postsFound = 0`, `textExtractionRate = 0`) and returned tagged
`source = dynamic`, `cached = false`, carrying the discovery's
confidence and reasoning; a failed discovery falls through to the
static tier-3 block instead of propagating the error. -/
theorem claim2_tier2_dynamic_discovery (st : Storage) (domain html : String)
    (discover : String → String → Except String SelectorDiscoveryResult)
    (now : ℤ)
    (hr : st.readFails = false) (hw : st.writeFails = false)
    (hmiss : (getCachedSelectors st domain now).1 = none) :
    (∀ r, discover domain html = .ok r →
      (handleDiscoverSelectors st domain (some html) false discover now).1
        = { domain := domain, selectors := r.selectors
            confidence := r.confidence, cached := false, source := .dynamic
            reasoning := some r.reasoning }
      ∧ assocLookup
          (handleDiscoverSelectors st domain (some html) false
            discover now).2.cache domain
        = some { domain := domain, selectors := r.selectors
                 confidence := r.confidence, discoveredAt := now
                 lastValidatedAt := now, validationMetrics := ⟨0, 0⟩ })
    ∧ (∀ e, discover domain html = .error e →
        handleDiscoverSelectors st domain (some html) false discover now
          = tier3Fallback (getCachedSelectors st domain now).2 domain
        ∧ (handleDiscoverSelectors st domain (some html) false
            discover now).1.source = Source.static) := by
  have hgc : getCachedSelectors st domain now
      = (none, (getCachedSelectors st domain now).2) := by
    rw [← hmiss]
  have hflags := getCachedSelectors_flags st domain now
  have hr1 : (getCachedSelectors st domain now).2.readFails = false :=
    hflags.1.trans hr
  have hw1 : (getCachedSelectors st domain now).2.writeFails = false :=
    hflags.2.trans hw
  constructor
  · intro r hok
    unfold handleDiscoverSelectors
    rw [hgc]
    simp only [hok]
    unfold setCachedSelectors
    simp [chromeGet, chromeSet, hr1, hw1]
    exact assocLookup_insert_self _ domain _
  · intro e herr
    unfold handleDiscoverSelectors
    rw [hgc]
    simp only [herr]
    exact ⟨rfl, (tier3Fallback_source _ domain).1⟩

/-- C7 (amended): cache identity is the raw domain string — the cache
`get` performs no normalization, so a domain absent from the cache as
written misses even when its normalized form (lowercased, leading
`www.` stripped, as computed by the content-script caller and by the
static registry) is present and fresh. -/
theorem claim7_amended_raw_key_lookup (st : Storage) (domain : String)
    (now : ℤ) (entry : SelectorCacheEntry)
    (hr : st.readFails = false)
    (hmiss : assocLookup st.cache domain = none)
    (hhit : assocLookup st.cache (normalizeDomain domain) = some entry)
    (hfresh : ¬ CACHE_TTL_MS < now - entry.discoveredAt) :
    (getCachedSelectors st domain now).1 = none
    ∧ (getCachedSelectors st (normalizeDomain domain) now).1 = some entry := by
  constructor
  · unfold getCachedSelectors
    simp [chromeGet, hr, hmiss]
  · unfold getCachedSelectors
    simp [chromeGet, hr, hhit, hfresh]

/-- C5: the validator's pass/fail rule.  `validateSelectors` reports
valid exactly when at least 2 posts were found and at least 65% of them
have a `textContent` descendant with trimmed text of length ≥ 50; when
the `postContainer` selector matches nothing it fails immediately with
`postsFound = 0` and `textExtractionRate = 0`; and `quickValidate`
reports valid exactly when at least 2 posts were found. -/
theorem claim5_validator_pass_fail_rule (doc : Dom)
    (sel : PlatformSelectors) (s : String) :
    ((validateSelectors doc sel).valid = true ↔
      2 ≤ (validateSelectors doc sel).postsFound
      ∧ (65 : ℚ) / 100 ≤ (validateSelectors doc sel).textExtractionRate)
    ∧ (doc.queryAll sel.postContainer = [] →
        validateSelectors doc sel = ⟨false, 0, 0⟩)
    ∧ ((quickValidate doc s).valid = true ↔
        2 ≤ (quickValidate doc s).postsFound) := by
  refine ⟨?_, ?_, ?_⟩
  · unfold validateSelectors
    by_cases h : (doc.queryAll sel.postContainer).length = 0
    · simp [h]
    · simp [h, Bool.and_eq_true, decide_eq_true_eq]
  · intro hq
    unfold validateSelectors
    simp [hq]
  · unfold quickValidate
    simp [decide_eq_true_eq]

/-- C9: the staged static-registry lookup, proved for an arbitrary
registry table: the normalized domain is tried first, then the
`www.`-prefixed form, then the base domain when it differs from the
normalized one; when every stage misses the result is `none` (not
found).  The base domain keeps the last 2 labels except for known
compound TLDs, which keep 3 — so `blog.example.co.uk` falls back to
whatever the registry holds at `example.co.uk`, not `co.uk`. -/
theorem claim9_static_registry_lookup_order
    (registry : List (String × PlatformSelectors)) (domain : String)
    (s : PlatformSelectors) :
    (assocLookup registry (normalizeDomain domain) = some s →
      getStaticSelectorsFrom registry domain = some s)
    ∧ (assocLookup registry (normalizeDomain domain) = none →
        assocLookup registry ("www." ++ normalizeDomain domain) = some s →
        getStaticSelectorsFrom registry domain = some s)
    ∧ (assocLookup registry (normalizeDomain domain) = none →
        assocLookup registry ("www." ++ normalizeDomain domain) = none →
        extractBaseDomain (normalizeDomain domain) ≠ normalizeDomain domain →
        assocLookup registry (extractBaseDomain (normalizeDomain domain))
          = some s →
        getStaticSelectorsFrom registry domain = some s)
    ∧ (assocLookup registry (normalizeDomain domain) = none →
        assocLookup registry ("www." ++ normalizeDomain domain) = none →
        assocLookup registry (extractBaseDomain (normalizeDomain domain))
          = none →
        getStaticSelectorsFrom registry domain = none)
    ∧ extractBaseDomain (normalizeDomain "blog.example.co.uk")
        = "example.co.uk"
    ∧ (assocLookup registry "blog.example.co.uk" = none →
        assocLookup registry "www.blog.example.co.uk" = none →
        assocLookup registry "example.co.uk" = some s →
        getStaticSelectorsFrom registry "blog.example.co.uk" = some s) := by
  refine ⟨?_, ?_, ?_, ?_, by decide, ?_⟩
  · intro h1
    unfold getStaticSelectorsFrom
    simp [h1]
  · intro h1 h2
    unfold getStaticSelectorsFrom
    simp [h1, h2]
  · intro h1 h2 h3 h4
    unfold getStaticSelectorsFrom
    simp [h1, h2, h3, h4]
  · intro h1 h2 h3
    unfold getStaticSelectorsFrom
    by_cases hb : extractBaseDomain (normalizeDomain domain)
        = normalizeDomain domain <;>
      simp [h1, h2, h3, hb]
  · intro h1 h2 h3
    have hn : normalizeDomain "blog.example.co.uk" = "blog.example.co.uk" := by
      decide
    have hw2 : ("www." ++ "blog.example.co.uk" : String)
        = "www.blog.example.co.uk" := by decide
    have hb : extractBaseDomain "blog.example.co.uk" = "example.co.uk" := by
      decide
    have hne : ("example.co.uk" : String) ≠ "blog.example.co.uk" := by decide
    unfold getStaticSelectorsFrom
    simp [hn, hw2, hb, hne, h1, h2, h3]

theorem retryGo_attempts_le
    (o : Nat → Except String SelectorDiscoveryResult) (m : Nat) :
    ∀ fuel a le, (retryGo o m fuel a le).attemptsMade ≤ fuel := by
  intro fuel
  induction fuel with
  | zero => intro a le; simp [retryGo]
  | succ f ih =>
    intro a le
    unfold retryGo
    cases h : o a with
    | ok r => simp
    | error e =>
      by_cases hc : jsIncludes e "API key" = true
      · simp [hc]
      · simp only [Bool.not_eq_true] at hc
        simp only [hc, Bool.false_eq_true, if_false]
        exact Nat.succ_le_succ (ih (a + 1) (some e))

theorem retryGo_attempts_pos
    (o : Nat → Except String SelectorDiscoveryResult) (m : Nat) :
    ∀ fuel a le, 1 ≤ fuel → 1 ≤ (retryGo o m fuel a le).attemptsMade := by
  intro fuel a le hf
  match fuel, hf with
  | f + 1, _ =>
    unfold retryGo
    cases h : o a with
    | ok r => simp
    | error e =>
      by_cases hc : jsIncludes e "API key" = true
      · simp [hc]
      · simp only [Bool.not_eq_true] at hc
        simp [hc]

theorem retryGo_delays_shape
    (o : Nat → Except String SelectorDiscoveryResult) (m : Nat) :
    ∀ fuel a le, (retryGo o m fuel a le).delays
      = (List.range' a ((retryGo o m fuel a le).attemptsMade - 1)).map
          (fun k => 2 ^ k * 1000) := by
  intro fuel
  induction fuel with
  | zero => intro a le; simp [retryGo]
  | succ f ih =>
    intro a le
    unfold retryGo
    cases h : o a with
    | ok r => simp
    | error e =>
      by_cases hc : jsIncludes e "API key" = true
      · simp [hc]
      · simp only [Bool.not_eq_true] at hc
        simp only [hc, Bool.false_eq_true, if_false]
        by_cases hf0 : f = 0
        · subst hf0
          simp [retryGo]
        · have hpos : 1 ≤ (retryGo o m f (a + 1) (some e)).attemptsMade :=
            retryGo_attempts_pos o m f (a + 1) (some e)
              (Nat.one_le_iff_ne_zero.mpr hf0)
          obtain ⟨q, hq⟩ : ∃ q,
              (retryGo o m f (a + 1) (some e)).attemptsMade = q + 1 :=
            ⟨_, (Nat.succ_pred_eq_of_pos hpos).symm⟩
          have hshape := ih (a + 1) (some e)
          simp only [hf0, if_false, Nat.add_sub_cancel]
          rw [hshape, hq]
          simp [List.range'_succ]

theorem retryGo_credential_abort
    (o : Nat → Except String SelectorDiscoveryResult) (m : Nat)
    (k : Nat) (e : String)
    (hok : o k = .error e) (hcred : jsIncludes e "API key" = true) :
    ∀ fuel a le, a ≤ k → k < a + fuel →
      (∀ j, a ≤ j → j < k →
        ∃ e2, o j = .error e2 ∧ jsIncludes e2 "API key" = false) →
      (retryGo o m fuel a le).result = .error e
      ∧ (retryGo o m fuel a le).attemptsMade = k - a + 1 := by
  intro fuel
  induction fuel with
  | zero => intro a le h1 h2; omega
  | succ f ih =>
    intro a le h1 h2 hprev
    by_cases hak : a = k
    · subst hak
      unfold retryGo
      simp [hok, hcred]
    · have halt : a < k := lt_of_le_of_ne h1 hak
      obtain ⟨e2, ho2, hc2⟩ := hprev a le_rfl halt
      unfold retryGo
      simp only [ho2, hc2, Bool.false_eq_true, if_false]
      have hrec := ih (a + 1) (some e2) halt (by omega)
        (fun j hj1 hj2 => hprev j (by omega) hj2)
      refine ⟨hrec.1, ?_⟩
      simp only [hrec.2]
      omega

theorem retryGo_exhaustion
    (o : Nat → Except String SelectorDiscoveryResult) (m : Nat)
    (em : String) :
    ∀ fuel a le, 1 ≤ fuel →
      (∀ j, a ≤ j → j < a + fuel →
        ∃ e2, o j = .error e2 ∧ jsIncludes e2 "API key" = false) →
      o (a + fuel - 1) = .error em →
      (retryGo o m fuel a le).result = .error (terminalMessage m em) := by
  intro fuel
  induction fuel with
  | zero => intro a le hf; omega
  | succ f ih =>
    intro a le _ hall hlast
    obtain ⟨e2, ho2, hc2⟩ := hall a le_rfl (by omega)
    by_cases hf0 : f = 0
    · subst hf0
      have hla : o a = .error em := by
        have heq : a + (0 + 1) - 1 = a := by omega
        rw [heq] at hlast
        exact hlast
      have hem : e2 = em := Except.error.inj (ho2.symm.trans hla)
      subst hem
      unfold retryGo
      simp [ho2, hc2, retryGo]
    · have hf1 : 1 ≤ f := Nat.one_le_iff_ne_zero.mpr hf0
      unfold retryGo
      simp only [ho2, hc2, Bool.false_eq_true, if_false]
      exact ih (a + 1) (some e2) hf1
        (fun j hj1 hj2 => hall j (by omega) (by omega))
        (by
          have heq : a + 1 + f - 1 = a + (f + 1) - 1 := by omega
          rw [heq]
          exact hlast)

/-- C6: the discovery retry loop.  It makes at most `maxAttempts`
attempts (the source defaults the parameter to 3); the backoff delays
slept are exactly `2 ^ attempt * 1000` ms for each non-final attempt
made, so a delay is only ever slept between attempts and never after
the last one; an attempt that fails with a credential-class error (its
message contains `"API key"`) is re-raised immediately and the loop
stops at exactly that attempt; and when every attempt fails
non-credentially, the terminal error names the attempt count and the
last underlying error message. -/
theorem claim6_retry_policy :
    (∀ (o : Nat → Except String SelectorDiscoveryResult) (m : Nat),
      (generateSelectorsWithRetry o m).attemptsMade ≤ m)
    ∧ (∀ (o : Nat → Except String SelectorDiscoveryResult) (m : Nat),
        (generateSelectorsWithRetry o m).delays
          = (List.range' 1 ((generateSelectorsWithRetry o m).attemptsMade - 1)).map
              (fun k => 2 ^ k * 1000))
    ∧ (∀ (o : Nat → Except String SelectorDiscoveryResult) (m k : Nat)
        (e : String), 1 ≤ k → k ≤ m →
        (∀ j, 1 ≤ j → j < k →
          ∃ e2, o j = .error e2 ∧ jsIncludes e2 "API key" = false) →
        o k = .error e → jsIncludes e "API key" = true →
        (generateSelectorsWithRetry o m).result = .error e
        ∧ (generateSelectorsWithRetry o m).attemptsMade = k)
    ∧ (∀ (o : Nat → Except String SelectorDiscoveryResult) (m : Nat)
        (em : String), 1 ≤ m →
        (∀ j, 1 ≤ j → j ≤ m →
          ∃ e2, o j = .error e2 ∧ jsIncludes e2 "API key" = false) →
        o m = .error em →
        (generateSelectorsWithRetry o m).result
          = .error (terminalMessage m em)) := by
  refine ⟨?_, ?_, ?_, ?_⟩
  · intro o m
    exact retryGo_attempts_le o m m 1 none
  · intro o m
    exact retryGo_delays_shape o m m 1 none
  · intro o m k e hk1 hk2 hprev hok hcred
    have h := retryGo_credential_abort o m k e hok hcred m 1 none hk1
      (by omega) hprev
    unfold generateSelectorsWithRetry
    exact ⟨h.1, by rw [h.2]; omega⟩
  · intro o m em hm hall hlast
    exact retryGo_exhaustion o m em m 1 none hm
      (fun j hj1 hj2 => hall j hj1 (by omega))
      (by
        have heq : 1 + m - 1 = m := by omega
        rw [heq]
        exact hlast)

/-! ## Concrete instances for counterexamples and witnesses -/

/-- A small selector set, as a dynamic discovery could produce it. -/
def exSelectors : PlatformSelectors :=
  { postContainer := ".post", textContent := ".body"
    author := none, timestamp := none }

/-- A cache entry for `example.com` discovered at time 0. -/
def exEntry : SelectorCacheEntry :=
  { domain := "example.com", selectors := exSelectors, confidence := 90
    discoveredAt := 0, lastValidatedAt := 0
    validationMetrics := ⟨3, 1⟩ }

/-- Healthy storage holding the `example.com` entry. -/
def exSt : Storage := ⟨[("example.com", exEntry)], false, false⟩

/-- Healthy storage with an empty cache. -/
def emptySt : Storage := ⟨[], false, false⟩

/-- Storage whose next read throws. -/
def rfSt : Storage := ⟨[("example.com", exEntry)], true, false⟩

/-- Storage whose next write throws. -/
def wfSt : Storage := ⟨[("example.com", exEntry)], false, true⟩

/-- A discovery result with confidence 72. -/
def exDiscovery : SelectorDiscoveryResult :=
  ⟨exSelectors, 72, "matched article blocks"⟩

/-- A discovery collaborator that always succeeds. -/
def exDiscoverOk : String → String → Except String SelectorDiscoveryResult :=
  fun _ _ => .ok exDiscovery

/-- A discovery collaborator that always fails non-credentially. -/
def exDiscoverFail : String → String → Except String SelectorDiscoveryResult :=
  fun _ _ => .error "model timeout"

/-- Attempt outcomes that always raise a credential-class error. -/
def exCredOutcomes : Nat → Except String SelectorDiscoveryResult :=
  fun _ => .error "Invalid API key"

/-- A page on which no selector matches anything. -/
def emptyDoc : Dom := ⟨fun _ => []⟩

/-- A registry holding selectors for `example.co.uk` only. -/
def exRegistry : List (String × PlatformSelectors) :=
  [("example.co.uk", exSelectors)]

/-! ## Counterexamples and witnesses -/

/-- C7 counterexample: with an entry cached under `"example.com"`, the
resolution pipeline answers `cached = true` for `"example.com"` but
`cached = false` for `"WWW.Example.COM"` — the two spellings do not hit
the same cache entry, because the cache `get` looks up the raw domain
string without normalizing it. -/
theorem claim7_counterexample_unnormalized_lookup :
    (handleDiscoverSelectors exSt "example.com" none false
      exDiscoverFail 5).1.cached = true
    ∧ (handleDiscoverSelectors exSt "WWW.Example.COM" none false
        exDiscoverFail 5).1.cached = false := by
  constructor <;> rfl

/-- C8 counterexample: with write-failing storage holding an entry for
`"example.com"`, `updateValidationTimestamp` and `removeCachedSelectors`
complete normally and leave the state unchanged instead of re-raising
the write failure. -/
theorem claim8_counterexample_swallowed_write_failure :
    updateValidationTimestamp wfSt "example.com" ⟨3, 1⟩ 5 = wfSt
    ∧ removeCachedSelectors wfSt "example.com" = wfSt := by
  constructor <;> rfl

/-- Witness for C1 at concrete inputs: after an invalid report for
`example.com` its entry is gone and a re-resolution is answered by
dynamic discovery. -/
theorem claim1_witness :
    assocLookup (handleValidationResult exSt "example.com" false 0 0 7).cache
      "example.com" = none
    ∧ (handleDiscoverSelectors (handleValidationResult exSt "example.com" false 0 0 7)
        "example.com" (some "<html>") false exDiscoverOk 8).1.source
      = Source.dynamic := by
  have h := claim1_validation_report_semantics exSt "example.com" 0 0 7 8
    "<html>" exDiscoverOk exDiscovery rfl rfl
  exact ⟨h.1.1, (h.1.2.2 rfl).1⟩

/-- Witness for C2 at concrete inputs: the unknown domain
`randomblog.example` with an empty cache and a discovery returning
confidence 72 yields a dynamic result and a fresh cache entry with
placeholder metrics. -/
theorem claim2_witness :
    (handleDiscoverSelectors emptySt "randomblog.example" (some "<html>")
        false exDiscoverOk 5).1
      = { domain := "randomblog.example", selectors := exDiscovery.selectors
          confidence := exDiscovery.confidence, cached := false
          source := .dynamic, reasoning := some exDiscovery.reasoning }
    ∧ assocLookup (handleDiscoverSelectors emptySt "randomblog.example"
        (some "<html>") false exDiscoverOk 5).2.cache "randomblog.example"
      = some { domain := "randomblog.example"
               selectors := exDiscovery.selectors
               confidence := exDiscovery.confidence, discoveredAt := 5
               lastValidatedAt := 5, validationMetrics := ⟨0, 0⟩ } :=
  (claim2_tier2_dynamic_discovery emptySt "randomblog.example" "<html>"
    exDiscoverOk 5 rfl rfl rfl).1 exDiscovery rfl

/-- Witness for C4 at concrete inputs: the `example.com` entry
discovered at time 0 is evicted by a read at 30 days + 1 ms. -/
theorem claim4_witness :
    getCachedSelectors exSt "example.com" 2592000001
      = (none, { exSt with cache := assocErase exSt.cache "example.com" }) :=
  ((claim4_lazy_expiry_on_read exSt "example.com" 2592000001 exEntry
      rfl rfl rfl).1 (by decide)).1

/-- Witness for C6 at concrete inputs: a collaborator that always
raises a credential error aborts discovery after exactly 1 attempt. -/
theorem claim6_witness :
    (generateSelectorsWithRetry exCredOutcomes 3).result
      = .error "Invalid API key"
    ∧ (generateSelectorsWithRetry exCredOutcomes 3).attemptsMade = 1 :=
  claim6_retry_policy.2.2.1 exCredOutcomes 3 1 "Invalid API key"
    (by decide) (by decide)
    (fun j hj1 hj2 => absurd (lt_of_le_of_lt hj1 hj2) (lt_irrefl 1))
    rfl (by decide)

/-- Witness for the amended C7 at concrete inputs: with the entry
stored under `example.com`, a raw lookup of `WWW.Example.COM` misses
while its normalized form hits. -/
theorem claim7_witness :
    (getCachedSelectors exSt "WWW.Example.COM" 5).1 = none
    ∧ (getCachedSelectors exSt (normalizeDomain "WWW.Example.COM") 5).1
      = some exEntry :=
  claim7_amended_raw_key_lookup exSt "WWW.Example.COM" 5 exEntry rfl
    (by decide) (by decide) (by decide)

/-- Witness for the amended C8 at concrete inputs: a read failure
degrades `get` to null; a write failure makes `set` throw. -/
theorem claim8_witness :
    getCachedSelectors rfSt "example.com" 0 = (none, rfSt)
    ∧ setCachedSelectors wfSt "example.com" exSelectors 90 ⟨0, 0⟩ 0
      = .error () := by
  have h1 := (claim8_storage_failure_semantics rfSt "example.com"
    exSelectors 90 ⟨0, 0⟩ 0).1 rfl
  have h2 := (claim8_storage_failure_semantics wfSt "example.com"
    exSelectors 90 ⟨0, 0⟩ 0).2 rfl rfl
  exact ⟨h1.1, h2.1⟩

/-- Witness for C5 at a concrete input: a page with no matching
containers fails immediately with zero counts. -/
theorem claim5_witness :
    validateSelectors emptyDoc exSelectors = ⟨false, 0, 0⟩ :=
  (claim5_validator_pass_fail_rule emptyDoc exSelectors ".post").2.1 rfl

/-- Witness for C9 at concrete inputs: against a registry holding only
`example.co.uk`, the staged lookup resolves `blog.example.co.uk` via
the 3-label compound-TLD fallback. -/
theorem claim9_witness :
    getStaticSelectorsFrom exRegistry "blog.example.co.uk"
      = some exSelectors :=
  (claim9_static_registry_lookup_order exRegistry "blog.example.co.uk"
    exSelectors).2.2.2.2.2 rfl rfl rfl

/-- Witness for C10 at concrete inputs: removing `other.com` leaves the
`example.com` entry unchanged. -/
theorem claim10_witness :
    assocLookup (removeCachedSelectors exSt "other.com").cache "example.com"
      = assocLookup exSt.cache "example.com" :=
  (claim10_frame_other_domains exSt "other.com" "example.com" exSelectors 90
    ⟨0, 0⟩ 5 exSt (by decide)).2.2

end FactIt
